import Mathlib

/-
  Verification development for the OData-to-SQL translation service in
  api/index.py (Flask handler `odata_endpoint`, plus its helpers).

  The Python code is shallowly embedded below.  Strings are Lean `String`s
  manipulated through explicit `List Char` primitives that mirror the exact
  semantics of the Python string methods the source uses (`split(',')`,
  `split(' ')`, `strip()`, `lower()`, `startswith`/`endswith`, `' '.join`,
  `int()`, `float()`, `urllib.parse.unquote_plus`).  All definitions are
  computable so that concrete requests evaluate by `decide` / `rfl`.

  Out of scope (external collaborators per the design): the HTTP framework
  routing/marshalling, psycopg2 execution, the database itself.  The model
  stops at the artefact the handler hands to the driver: either a 400 client
  error, or a fully assembled SQL statement string together with its ordered
  bound-parameter list.
-/

/-- The ASCII single-quote character, written via its code point. -/
def squoteChar : Char := Char.ofNat 39

/-- The one-character string holding a single quote. -/
def squote : String := String.mk [squoteChar]

/-- Python `str.isspace` members relevant to `str.strip()` (ASCII whitespace:
space, tab, newline, carriage return, vertical tab, form feed).  Python also
strips some non-ASCII Unicode whitespace, which this model does not track. -/
def isPySpace (c : Char) : Bool :=
  c == ' ' || c == '\t' || c == '\n' || c == '\r' || c == '\x0b' || c == '\x0c'

/-- Python `s.strip()` on the character list: drop leading whitespace, then
drop trailing whitespace (via reverse). -/
def pyStripList (cs : List Char) : List Char :=
  ((cs.dropWhile isPySpace).reverse.dropWhile isPySpace).reverse

/-- Python `s.strip()`. -/
def pyStrip (s : String) : String := String.mk (pyStripList s.toList)

/-- ASCII lower-casing of one character, as Python `str.lower` acts on ASCII.
Non-ASCII letters are left unchanged by this model; the source only ever
compares lowered strings against ASCII keywords (`eq`, `desc`, `true`, ...),
for which a non-ASCII letter can never make the comparison succeed either
way, so the difference is unobservable in the embedded code. -/
def pyCharLower (c : Char) : Char :=
  if 'A' ≤ c ∧ c ≤ 'Z' then Char.ofNat (c.toNat + 32) else c

/-- Python `s.lower()` (ASCII fragment, see `pyCharLower`). -/
def pyLower (s : String) : String := String.mk (s.toList.map pyCharLower)

/-- Splitter used by Python `s.split(sep)` for a one-character separator:
accumulates the current field (reversed) and emits it at each separator.
Always returns a non-empty list; `"".split(sep) == ['']`. -/
def splitCharAux (sep : Char) : List Char → List Char → List (List Char)
  | [], acc => [acc.reverse]
  | c :: rest, acc =>
    if c = sep then acc.reverse :: splitCharAux sep rest []
    else splitCharAux sep rest (c :: acc)

/-- Python `s.split(sep)` for a single-character separator (keeps empty
fields, exactly like Python with an explicit separator). -/
def pySplitChar (sep : Char) (s : String) : List String :=
  (splitCharAux sep s.toList []).map String.mk

/-- Python `sep.join(xs)`. -/
def pyJoin (sep : String) : List String → String
  | [] => ""
  | [x] => x
  | x :: y :: rest => x ++ sep ++ pyJoin sep (y :: rest)

/-- Python `s.startswith(c)` for a one-character argument. -/
def strStartsWithChar (c : Char) (s : String) : Bool :=
  s.toList.head? == some c

/-- Python `s.endswith(c)` for a one-character argument. -/
def strEndsWithChar (c : Char) (s : String) : Bool :=
  s.toList.getLast? == some c

/-- Python `s[1:-1]`: drop the first and the last character. -/
def strInterior (s : String) : String :=
  String.mk ((s.toList.drop 1).dropLast)

/-- Decimal-digit accumulator for `int()`: succeeds only if every character
is an ASCII digit. -/
def digitsAux : List Char → Nat → Option Nat
  | [], acc => some acc
  | c :: rest, acc =>
    if c.isDigit then digitsAux rest (acc * 10 + (c.toNat - 48)) else none

/-- Python `int(s)` in base 10: strip whitespace, optional sign, then one or
more ASCII digits; anything else raises `ValueError`, modelled as `none`.
(Python additionally allows underscore digit separators and non-ASCII
decimal digits; neither appears in any statement proved below.) -/
def pyInt (s : String) : Option Int :=
  match pyStripList s.toList with
  | '+' :: rest =>
    if rest = [] then none else (digitsAux rest 0).map (fun n => (n : Int))
  | '-' :: rest =>
    if rest = [] then none else (digitsAux rest 0).map (fun n => -(n : Int))
  | cs =>
    if cs = [] then none else (digitsAux cs 0).map (fun n => (n : Int))

/-- Exponent part of a Python float literal: empty, or `e`/`E`, optional
sign, then one or more digits. -/
def floatExpOk : List Char → Bool
  | [] => true
  | e :: rest =>
    if e = 'e' ∨ e = 'E' then
      let digits := match rest with
        | '+' :: t => t
        | '-' :: t => t
        | t => t
      if digits = [] then false else digits.all Char.isDigit
    else false

/-- Mantissa-plus-exponent of a Python float literal (sign already removed):
`digits [. digits] [exp]` or `. digits [exp]`, with at least one digit. -/
def floatBodyOk (cs : List Char) : Bool :=
  let intPart := cs.takeWhile Char.isDigit
  let rest1 := cs.dropWhile Char.isDigit
  match rest1 with
  | '.' :: r2 =>
    let frac := r2.takeWhile Char.isDigit
    let r3 := r2.dropWhile Char.isDigit
    if intPart = [] ∧ frac = [] then false else floatExpOk r3
  | r => if intPart = [] then false else floatExpOk r

/-- Whether Python `float(s)` succeeds: strip whitespace, optional sign, then
a numeric body or the keywords `inf` / `infinity` / `nan` (case-insensitive).
Only acceptance is modelled; the IEEE value itself is never needed by the
code below, which only forwards the value to the database driver. -/
def pyFloatAccepts (s : String) : Bool :=
  let cs := pyStripList s.toList
  let cs2 := match cs with
    | '+' :: r => r
    | '-' :: r => r
    | r => r
  let low := cs2.map pyCharLower
  if low = "inf".toList ∨ low = "infinity".toList ∨ low = "nan".toList then true
  else floatBodyOk cs2

/-- Bool test that `lo ≤ n ≤ hi`. -/
def between (lo n hi : Nat) : Bool := Nat.ble lo n && Nat.ble n hi

/-- Python `str.isalnum` for one character.  Exact for code points up to
U+00FF (ASCII alphanumerics plus the Latin-1 letters and numeric signs
`ª µ º ² ³ ¹ ¼ ½ ¾ À-Ö Ø-ö ø-ÿ`).  Code points above U+00FF (which Python
also accepts when they are Unicode letters or digits) are not tracked by
this model and map to `false`; no statement below depends on them. -/
def pyIsAlnum (c : Char) : Bool :=
  let n := c.toNat
  c.isAlphanum
  || n == 0xAA || n == 0xB5 || n == 0xBA || n == 0xB9
  || between 0xB2 n 0xB3 || between 0xBC n 0xBE
  || between 0xC0 n 0xD6 || between 0xD8 n 0xF6 || between 0xF8 n 0xFF

/-- Hexadecimal value of one character, if any. -/
def hexVal? (c : Char) : Option Nat :=
  if '0' ≤ c ∧ c ≤ '9' then some (c.toNat - 48)
  else if 'a' ≤ c ∧ c ≤ 'f' then some (c.toNat - 87)
  else if 'A' ≤ c ∧ c ≤ 'F' then some (c.toNat - 55)
  else none

/-- U+FFFD, the Unicode replacement character. -/
def replacementChar : Char := Char.ofNat 0xFFFD

/-- Second-byte range check for a three-byte UTF-8 sequence (excludes
overlong encodings and surrogates, as CPython does). -/
def utf8Cont2Ok (b b2 : Nat) : Bool :=
  if b = 0xE0 then between 0xA0 b2 0xBF
  else if b = 0xED then between 0x80 b2 0x9F
  else between 0x80 b2 0xBF

/-- Second-byte range check for a four-byte UTF-8 sequence. -/
def utf8Cont4Ok (b b2 : Nat) : Bool :=
  if b = 0xF0 then between 0x90 b2 0xBF
  else if b = 0xF4 then between 0x80 b2 0x8F
  else between 0x80 b2 0xBF

/-- Code point of a valid two-byte UTF-8 sequence. -/
def utf8Dec2 (b b2 : Nat) : Char := Char.ofNat ((b - 0xC0) * 64 + (b2 - 0x80))

/-- Code point of a valid three-byte UTF-8 sequence. -/
def utf8Dec3 (b b2 b3 : Nat) : Char :=
  Char.ofNat ((b - 0xE0) * 4096 + (b2 - 0x80) * 64 + (b3 - 0x80))

/-- Code point of a valid four-byte UTF-8 sequence. -/
def utf8Dec4 (b b2 b3 b4 : Nat) : Char :=
  Char.ofNat ((b - 0xF0) * 262144 + (b2 - 0x80) * 4096 +
    (b3 - 0x80) * 64 + (b4 - 0x80))

/-- UTF-8 decoding of a byte run with `errors="replace"`: each invalid byte
or truncated sequence becomes U+FFFD and scanning resumes at the offending
byte.  Exact on valid UTF-8; on invalid input the number of replacement
characters approximates CPython closely enough for every statement below
(none of which feeds invalid UTF-8 through it). -/
def utf8DecodeReplace : List Nat → List Char
  | [] => []
  | [b] => if b < 0x80 then [Char.ofNat b] else [replacementChar]
  | [b, b2] =>
    if b < 0x80 then Char.ofNat b :: utf8DecodeReplace [b2]
    else if between 0xC2 b 0xDF then
      if between 0x80 b2 0xBF then [utf8Dec2 b b2]
      else replacementChar :: utf8DecodeReplace [b2]
    else if between 0xE0 b 0xEF then
      if utf8Cont2Ok b b2 then [replacementChar]
      else replacementChar :: utf8DecodeReplace [b2]
    else if between 0xF0 b 0xF4 then
      if utf8Cont4Ok b b2 then [replacementChar]
      else replacementChar :: utf8DecodeReplace [b2]
    else replacementChar :: utf8DecodeReplace [b2]
  | [b, b2, b3] =>
    if b < 0x80 then Char.ofNat b :: utf8DecodeReplace [b2, b3]
    else if between 0xC2 b 0xDF then
      if between 0x80 b2 0xBF then utf8Dec2 b b2 :: utf8DecodeReplace [b3]
      else replacementChar :: utf8DecodeReplace [b2, b3]
    else if between 0xE0 b 0xEF then
      if utf8Cont2Ok b b2 then
        if between 0x80 b3 0xBF then [utf8Dec3 b b2 b3]
        else replacementChar :: utf8DecodeReplace [b3]
      else replacementChar :: utf8DecodeReplace [b2, b3]
    else if between 0xF0 b 0xF4 then
      if utf8Cont4Ok b b2 then
        if between 0x80 b3 0xBF then [replacementChar]
        else replacementChar :: utf8DecodeReplace [b3]
      else replacementChar :: utf8DecodeReplace [b2, b3]
    else replacementChar :: utf8DecodeReplace [b2, b3]
  | b :: b2 :: b3 :: b4 :: rest =>
    if b < 0x80 then Char.ofNat b :: utf8DecodeReplace (b2 :: b3 :: b4 :: rest)
    else if between 0xC2 b 0xDF then
      if between 0x80 b2 0xBF then
        utf8Dec2 b b2 :: utf8DecodeReplace (b3 :: b4 :: rest)
      else replacementChar :: utf8DecodeReplace (b2 :: b3 :: b4 :: rest)
    else if between 0xE0 b 0xEF then
      if utf8Cont2Ok b b2 then
        if between 0x80 b3 0xBF then
          utf8Dec3 b b2 b3 :: utf8DecodeReplace (b4 :: rest)
        else replacementChar :: utf8DecodeReplace (b3 :: b4 :: rest)
      else replacementChar :: utf8DecodeReplace (b2 :: b3 :: b4 :: rest)
    else if between 0xF0 b 0xF4 then
      if utf8Cont4Ok b b2 then
        if between 0x80 b3 0xBF then
          if between 0x80 b4 0xBF then
            utf8Dec4 b b2 b3 b4 :: utf8DecodeReplace rest
          else replacementChar :: utf8DecodeReplace (b4 :: rest)
        else replacementChar :: utf8DecodeReplace (b3 :: b4 :: rest)
      else replacementChar :: utf8DecodeReplace (b2 :: b3 :: b4 :: rest)
    else replacementChar :: utf8DecodeReplace (b2 :: b3 :: b4 :: rest)

/-- Core loop of `urllib.parse.unquote`, mirroring CPython: the input has
been split on `%`, and each item after the first is examined.  An item whose
first two characters are hex digits contributes that byte to the pending
byte run; when the item has trailing literal text (or an item is not a valid
escape, which re-emits `%` plus the item verbatim) the pending run is
flushed through UTF-8 decoding first. -/
def unquoteItems : List (List Char) → List Nat → List Char
  | [], acc => utf8DecodeReplace acc
  | item :: more, acc =>
    match item with
    | c1 :: c2 :: restI =>
      match hexVal? c1, hexVal? c2 with
      | some h1, some h2 =>
        if restI = [] then unquoteItems more (acc ++ [16 * h1 + h2])
        else
          utf8DecodeReplace (acc ++ [16 * h1 + h2]) ++ restI ++
            unquoteItems more []
      | _, _ =>
        utf8DecodeReplace acc ++ '%' :: (item ++ unquoteItems more [])
    | _ =>
      utf8DecodeReplace acc ++ '%' :: (item ++ unquoteItems more [])

/-- Python `urllib.parse.unquote(s)` (default UTF-8, `errors="replace"`):
pure percent-decoding, with no plus-sign handling. -/
def pyUnquote (s : String) : String :=
  match splitCharAux '%' s.toList [] with
  | [] => s
  | first :: items => String.mk (first ++ unquoteItems items [])

/-- Python `urllib.parse.unquote_plus(s)`: first turn every `+` into a
space, then percent-decode. -/
def pyUnquotePlus (s : String) : String :=
  pyUnquote (String.mk (s.toList.map (fun c => if c = '+' then ' ' else c)))

/-- A Python value as it can appear in the bound-parameter list handed to
the database driver: filter literals are strings, booleans, ints or floats;
`$top` / `$skip` contribute ints; POST bodies contribute arbitrary JSON
scalars.  A float is represented by its accepted source token, since the
code never computes with the numeric value, it only forwards it. -/
inductive PyVal where
  | null : PyVal
  | pybool : Bool → PyVal
  | pyint : Int → PyVal
  | pyfloat : String → PyVal
  | pystr : String → PyVal
deriving DecidableEq

/-- The five OData query parameters of a GET request, each `none` when the
parameter is absent from the URL (`request.args.get` returning `None`). -/
structure GetParams where
  select : Option String
  filter : Option String
  orderby : Option String
  top : Option String
  skip : Option String
deriving DecidableEq

/-- A GET request with no query parameters. -/
def noParams : GetParams := ⟨none, none, none, none, none⟩

/-- What the handler produces, up to the database boundary: an early 400
client error (no SQL statement exists in this case), or the assembled SQL
text plus ordered parameter list for a SELECT or an INSERT. -/
inductive Response where
  | clientError : String → Response
  | getQuery : String → List PyVal → Response
  | insertQuery : String → List PyVal → Response
deriving DecidableEq

/-- Source line 86: wrap an identifier in double quotes. -/
def quoteIdent (s : String) : String := "\"" ++ s ++ "\""

/-- Source line 87: keep only the characters that satisfy Python
`char.isalnum()` or are an underscore. -/
def sanitizeRaw (s : String) : String :=
  String.mk (s.toList.filter (fun c => pyIsAlnum c || c == '_'))

/-- Source lines 97-109: build the projection list from `$select`.  Absent
or empty parameter, or a parameter whose every comma-field strips to empty,
yields `*`; otherwise the stripped non-empty fields are each quote-wrapped
and joined with a comma. -/
def columnsToSelect (sp : Option String) : String :=
  match sp with
  | none => "*"
  | some s =>
    if s = "" then "*"
    else
      let cols := (((pySplitChar ',' s).map pyStrip).filter
        (fun c => c ≠ "")).map quoteIdent
      if cols = [] then "*" else pyJoin ", " cols

/-- Source lines 125-129: the OData operator keywords the code recognises,
mapped to their SQL operators.  (The source checks membership in the list
`[eq, gt, lt, ge, le, ne]` and then looks the keyword up in the dict with
default `=`; the default is unreachable, so the two steps collapse to this
one partial map.) -/
def sqlOperatorMap (op : String) : Option String :=
  if op = "eq" then some "="
  else if op = "gt" then some ">"
  else if op = "lt" then some "<"
  else if op = "ge" then some ">="
  else if op = "le" then some "<="
  else if op = "ne" then some "!="
  else none

/-- Source lines 131-143, the literal coercion chain: single-quoted token
(startswith and endswith a quote; no minimum length in the source) →
`unquote_plus` of the interior; else `true` / `false` case-insensitively →
bool; else `int()`; else `float()`; else the raw token as a string. -/
def coerceValue (valueRaw : String) : PyVal :=
  if strStartsWithChar squoteChar valueRaw && strEndsWithChar squoteChar valueRaw then
    PyVal.pystr (pyUnquotePlus (strInterior valueRaw))
  else if pyLower valueRaw = "true" || pyLower valueRaw = "false" then
    PyVal.pybool (pyLower valueRaw = "true")
  else
    match pyInt valueRaw with
    | some n => PyVal.pyint n
    | none =>
      if pyFloatAccepts valueRaw then PyVal.pyfloat valueRaw
      else PyVal.pystr valueRaw

/-- Source lines 114-152: parse `$filter` into at most one predicate.  The
string is split on single spaces; with at least three fields and a
recognised operator keyword the result is the SQL fragment
`"prop" op %s` paired with the coerced value; otherwise (absent or empty
parameter, fewer than three fields, unknown operator) the filter is
silently ignored. -/
def filterFragment (fp : Option String) : Option (String × PyVal) :=
  match fp with
  | none => none
  | some f =>
    if f = "" then none
    else
      match pySplitChar ' ' f with
      | p0 :: p1 :: v0 :: vrest =>
        match sqlOperatorMap (pyLower p1) with
        | some op =>
          some (quoteIdent p0 ++ " " ++ op ++ " %s",
            coerceValue (pyJoin " " (v0 :: vrest)))
        | none => none
      | _ => none

/-- Source lines 111-146: the `query_parts` list after filter processing. -/
def queryPartsOf (fp : Option String) : List String :=
  match filterFragment fp with
  | none => []
  | some fr => [fr.1]

/-- The `sql_params` list after filter processing (before `$top`/`$skip`). -/
def filterParamsOf (fp : Option String) : List PyVal :=
  match filterFragment fp with
  | none => []
  | some fr => [fr.2]

/-- Source lines 154-156: the WHERE clause, joining `query_parts` with
` AND `. -/
def whereClauseOf (qparts : List String) : String :=
  if qparts = [] then "" else " WHERE " ++ pyJoin " AND " qparts

/-- Source lines 162-172: one `$orderby` entry.  Strip it; an empty entry is
dropped; otherwise split on single spaces, quote-wrap the first field, and
the direction is DESC exactly when a second field exists and lower-cases to
`desc`. -/
def orderEntry (part : String) : Option String :=
  let t := pyStrip part
  if t = "" then none
  else
    match pySplitChar ' ' t with
    | [] => none
    | c0 :: rest =>
      let direction := match rest with
        | d :: _ => if pyLower d = "desc" then "DESC" else "ASC"
        | [] => "ASC"
      some (quoteIdent c0 ++ " " ++ direction)

/-- Source lines 158-176: the ORDER BY clause from `$orderby`. -/
def orderByClauseOf (ob : Option String) : String :=
  match ob with
  | none => ""
  | some s =>
    if s = "" then ""
    else
      let entries := (pySplitChar ',' s).filterMap orderEntry
      if entries = [] then "" else " ORDER BY " ++ pyJoin ", " entries

/-- Source lines 178-185: the LIMIT clause and its effect on the parameter
list.  Faithful to the source, `limit_clause` is assigned before
`int(top_param)` is evaluated, so a present but non-integer `$top` still
leaves ` LIMIT %s` in the statement while appending no parameter (the
`except ValueError` branch only logs). -/
def limitFragment (top : Option String) (params : List PyVal) :
    String × List PyVal :=
  match top with
  | none => ("", params)
  | some t =>
    if t = "" then ("", params)
    else
      (" LIMIT %s",
        match pyInt t with
        | some n => params ++ [PyVal.pyint n]
        | none => params)

/-- Source lines 187-194: the OFFSET clause, with the same shape (and the
same assignment-before-parse behaviour) as `limitFragment`. -/
def offsetFragment (skip : Option String) (params : List PyVal) :
    String × List PyVal :=
  match skip with
  | none => ("", params)
  | some t =>
    if t = "" then ("", params)
    else
      (" OFFSET %s",
        match pyInt t with
        | some n => params ++ [PyVal.pyint n]
        | none => params)

/-- Source lines 95-198: the full GET build — projection, filter, WHERE,
ORDER BY, LIMIT, OFFSET, assembled exactly as the f-string on line 196,
with the parameter list accumulated in the order filter, top, skip. -/
def buildGetQuery (entitySet : String) (p : GetParams) : String × List PyVal :=
  let cols := columnsToSelect p.select
  let whereClause := whereClauseOf (queryPartsOf p.filter)
  let orderClause := orderByClauseOf p.orderby
  let lim := limitFragment p.top (filterParamsOf p.filter)
  let off := offsetFragment p.skip lim.2
  ("SELECT " ++ cols ++ " FROM " ++ quoteIdent entitySet ++ whereClause ++
      orderClause ++ lim.1 ++ off.1 ++ ";",
    off.2)

/-- Source lines 84-222, GET path: sanitize the entity-set name (lines
86-90; reject with 400 when the filtered name is empty or differs from the
original), then build the SELECT statement.  Database connection and
execution are external and not modelled. -/
def handleGet (entitySet : String) (p : GetParams) : Response :=
  if sanitizeRaw entitySet = "" ∨ sanitizeRaw entitySet ≠ entitySet then
    Response.clientError "Invalid entity set name provided in the URL."
  else
    Response.getQuery (buildGetQuery entitySet p).1 (buildGetQuery entitySet p).2

/-- Source lines 224-253, POST path: same entity-set sanitization, then a
falsy (absent / null / empty-object) JSON body is rejected with 400 before
any statement exists; otherwise columns, placeholders and values are
accumulated in one pass over the body items and the INSERT statement of
line 248 is assembled.  The body is modelled as the ordered key/value list
of the JSON object (Python dicts preserve insertion order). -/
def handlePost (entitySet : String) (body : Option (List (String × PyVal))) :
    Response :=
  if sanitizeRaw entitySet = "" ∨ sanitizeRaw entitySet ≠ entitySet then
    Response.clientError "Invalid entity set name provided in the URL."
  else
    match body with
    | none => Response.clientError "No data provided in POST request body."
    | some items =>
      if items = [] then
        Response.clientError "No data provided in POST request body."
      else
        let columns := items.map (fun kv => quoteIdent kv.1)
        let placeholders := items.map (fun _ => "%s")
        let values := items.map Prod.snd
        if columns = [] then
          Response.clientError "No valid columns found in POST data."
        else
          Response.insertQuery
            ("INSERT INTO " ++ quoteIdent entitySet ++ " (" ++
              pyJoin ", " columns ++ ") VALUES (" ++
              pyJoin ", " placeholders ++ ") RETURNING *;")
            values

/-- Specification-side reading of one `$orderby` entry (following the
claim wording for C7, to be compared with the source-side `orderEntry`):
the trimmed entry, when non-empty, is split into a column token and an
optional direction token, and the direction is `DESC` exactly when the
second token case-insensitively equals `desc`. -/
def specOrderEntry (part : String) : Option (String × String) :=
  let t := pyStrip part
  if t = "" then none
  else
    match pySplitChar ' ' t with
    | [] => none
    | c0 :: rest =>
      some (c0, match rest with
        | d :: _ => if pyLower d = "desc" then "DESC" else "ASC"
        | [] => "ASC")

/-- Specification-side ordered list of `(column, direction)` pairs parsed
from a full `$orderby` string (claim C7). -/
def specOrderEntries (s : String) : List (String × String) :=
  (pySplitChar ',' s).filterMap specOrderEntry

/-- Rendering of a specification-side order pair as the SQL fragment the
code emits for it. -/
def renderOrderEntry (e : String × String) : String :=
  quoteIdent e.1 ++ " " ++ e.2

/-- Number of `%s` placeholders in a character list. -/
def countPlaceholdersList : List Char → Nat
  | '%' :: 's' :: rest => countPlaceholdersList rest + 1
  | _ :: rest => countPlaceholdersList rest
  | [] => 0

/-- Number of `%s` placeholders in a SQL statement string. -/
def countPlaceholders (s : String) : Nat := countPlaceholdersList s.toList

/-
  Claim theorems.
-/

/-- Claim C1 (code bug, evaluation): the placeholder/parameter invariant is
violated by the code.  For the GET request `/api/odata/event?$top=abc`, the
assembled statement contains one `%s` placeholder (` LIMIT %s` survives the
failed `int("abc")` because `limit_clause` is assigned on line 182 before
`int(top_param)` is evaluated on line 183, and the `except ValueError` arm
only logs "Ignoring limit."), while the parameter list is empty. -/
theorem C1_top_parse_bug_eval :
    handleGet "event" ⟨none, none, none, some "abc", none⟩ =
      Response.getQuery "SELECT * FROM \"event\" LIMIT %s;" [] ∧
    countPlaceholders "SELECT * FROM \"event\" LIMIT %s;" = 1 ∧
    ([] : List PyVal).length = 0 := by
  refine ⟨by decide, by decide, rfl⟩

/-- Claim C2 (code bug, evaluation): for a GET request with `$top=2.5` and
`$skip=xyz` (neither parses as a base-10 integer), the final statement still
contains ` LIMIT %s OFFSET %s` — the clauses are not dropped, contrary to
the claim and to the source's own "Ignoring limit." / "Ignoring offset."
log messages — while no parameter is appended, leaving two placeholders and
an empty parameter list. -/
theorem C2_limit_offset_not_dropped_eval :
    handleGet "event" ⟨none, none, none, some "2.5", some "xyz"⟩ =
      Response.getQuery "SELECT * FROM \"event\" LIMIT %s OFFSET %s;" [] ∧
    pyInt "2.5" = none ∧ pyInt "xyz" = none ∧
    countPlaceholders "SELECT * FROM \"event\" LIMIT %s OFFSET %s;" = 2 := by
  refine ⟨by decide, by decide, by decide, by decide⟩

/-- Claim C8: a POST whose body is absent (or JSON null, both modelled as
`none`) or an empty object is answered with a client error, and no SQL
statement is built — a `Response.clientError` carries no statement. -/
theorem C8_empty_post_rejected (entitySet : String)
    (body : Option (List (String × PyVal)))
    (h : body = none ∨ body = some []) :
    ∃ msg, handlePost entitySet body = Response.clientError msg := by
  unfold handlePost
  by_cases hs : sanitizeRaw entitySet = "" ∨ sanitizeRaw entitySet ≠ entitySet
  · exact ⟨"Invalid entity set name provided in the URL.", by rw [if_pos hs]⟩
  · rw [if_neg hs]
    rcases h with h | h <;> subst h
    · exact ⟨"No data provided in POST request body.", rfl⟩
    · exact ⟨"No data provided in POST request body.", by simp⟩

/-- Witness for C8 at the concrete entity set `event`, with an absent body
and with an empty-object body. -/
theorem C8_witness :
    (∃ msg, handlePost "event" none = Response.clientError msg) ∧
    (∃ msg, handlePost "event" (some []) = Response.clientError msg) :=
  ⟨C8_empty_post_rejected "event" none (Or.inl rfl),
   C8_empty_post_rejected "event" (some []) (Or.inr rfl)⟩

/-- Claim C9: the list of predicate fragments never holds more than one
element, and consequently the WHERE clause is either absent or ` WHERE `
followed by that single fragment — the ` AND ` join never sits between two
predicates. -/
theorem C9_single_predicate (fp : Option String) :
    (queryPartsOf fp).length ≤ 1 ∧
    (whereClauseOf (queryPartsOf fp) = "" ∨
      ∃ frag, queryPartsOf fp = [frag] ∧
        whereClauseOf (queryPartsOf fp) = " WHERE " ++ frag) := by
  unfold queryPartsOf
  cases h : filterFragment fp with
  | none => exact ⟨by simp, Or.inl (by simp [whereClauseOf])⟩
  | some fr =>
    refine ⟨by simp, Or.inr ⟨fr.1, rfl, ?_⟩⟩
    simp [whereClauseOf, pyJoin]

/-- Claim C10: for a POST with a non-empty object body, the INSERT carries
the quoted columns, the placeholders and the values as three lists of equal
length, all produced positionally from the body items in iteration order
(the zip equation states that position i pairs the column built from key i
with value i). -/
theorem C10_insert_alignment (entitySet : String)
    (items : List (String × PyVal))
    (hsan : sanitizeRaw entitySet ≠ "" ∧ sanitizeRaw entitySet = entitySet)
    (hne : items ≠ []) :
    handlePost entitySet (some items) =
      Response.insertQuery
        ("INSERT INTO " ++ quoteIdent entitySet ++ " (" ++
          pyJoin ", " (items.map (fun kv => quoteIdent kv.1)) ++ ") VALUES (" ++
          pyJoin ", " (items.map (fun _ => "%s")) ++ ") RETURNING *;")
        (items.map Prod.snd) ∧
    (items.map (fun kv => quoteIdent kv.1)).length = items.length ∧
    (items.map (fun _ : String × PyVal => "%s")).length = items.length ∧
    (items.map Prod.snd).length = items.length ∧
    (items.map (fun kv => quoteIdent kv.1)).zip (items.map Prod.snd) =
      items.map (fun kv => (quoteIdent kv.1, kv.2)) := by
  refine ⟨?_, by simp, by simp, by simp, ?_⟩
  · unfold handlePost
    rw [if_neg (not_or.mpr ⟨hsan.1, not_not_intro hsan.2⟩)]
    simp [hne]
  · rw [List.zip_map']

/-- Witness for C10 at a concrete two-key body. -/
theorem C10_witness :
    handlePost "event"
        (some [("name", PyVal.pystr "Alice"), ("age", PyVal.pyint 30)]) =
      Response.insertQuery
        "INSERT INTO \"event\" (\"name\", \"age\") VALUES (%s, %s) RETURNING *;"
        [PyVal.pystr "Alice", PyVal.pyint 30] := by
  have h := C10_insert_alignment "event"
    [("name", PyVal.pystr "Alice"), ("age", PyVal.pyint 30)]
    ⟨by decide, by decide⟩ (by decide)
  exact h.1.trans (by decide)

/-- String concatenation is associative (helper for reassociating the
assembled statement around its `FROM` section). -/
theorem strAppendAssoc (a b c : String) : a ++ b ++ c = a ++ (b ++ c) := by
  cases a with
  | mk da =>
    cases b with
    | mk db =>
      cases c with
      | mk dc =>
        show String.mk (da ++ db ++ dc) = String.mk (da ++ (db ++ dc))
        rw [List.append_assoc]

/-- An operator keyword outside the recognised list maps to no SQL
operator. -/
theorem sqlOperatorMap_none_of_not_mem (op : String)
    (h : op ∉ (["eq", "gt", "lt", "ge", "le", "ne"] : List String)) :
    sqlOperatorMap op = none := by
  unfold sqlOperatorMap
  split_ifs <;> simp_all

/-- Claim C3 counterexample: for the entity set `café`, the name filtered to
the ASCII class `[A-Za-z0-9_]` differs from the original, so the claim
requires a 400 rejection; the code instead accepts the name (Python
`isalnum` also accepts the non-ASCII letter `é`) and builds a statement —
whose FROM identifier is moreover the double-quoted name, not an unquoted
one. -/
theorem C3_counterexample :
    String.mk ("café".toList.filter (fun c => c.isAlphanum || c == '_')) ≠ "café" ∧
    handleGet "café" noParams =
      Response.getQuery "SELECT * FROM \"café\";" [] := by
  refine ⟨by decide, by decide⟩

/-- Claim C3 (amended): the entity-set name filtered through Python
`isalnum`-or-underscore must be non-empty and equal to the original, else
the request is rejected with a 400 client error before any statement is
built; when it passes, the statement's FROM identifier is the original name
wrapped in double quotes. -/
theorem C3_amended (entitySet : String) (p : GetParams) :
    (sanitizeRaw entitySet = "" ∨ sanitizeRaw entitySet ≠ entitySet →
      handleGet entitySet p =
        Response.clientError "Invalid entity set name provided in the URL.") ∧
    (sanitizeRaw entitySet ≠ "" ∧ sanitizeRaw entitySet = entitySet →
      handleGet entitySet p =
        Response.getQuery (buildGetQuery entitySet p).1
          (buildGetQuery entitySet p).2 ∧
      ∃ rest, (buildGetQuery entitySet p).1 =
        "SELECT " ++ columnsToSelect p.select ++ " FROM " ++
          quoteIdent entitySet ++ rest) := by
  constructor
  · intro h
    unfold handleGet
    rw [if_pos h]
  · intro h
    refine ⟨?_, ?_⟩
    · unfold handleGet
      rw [if_neg (not_or.mpr ⟨h.1, not_not_intro h.2⟩)]
    · refine ⟨whereClauseOf (queryPartsOf p.filter) ++
        (orderByClauseOf p.orderby ++
          ((limitFragment p.top (filterParamsOf p.filter)).1 ++
            ((offsetFragment p.skip
              (limitFragment p.top (filterParamsOf p.filter)).2).1 ++ ";"))), ?_⟩
      simp only [buildGetQuery, strAppendAssoc]

/-- Witness for C3 (amended): the entity set `ev!l` is rejected with the
400 error, while `event` passes and yields a statement whose FROM section
holds the double-quoted name. -/
theorem C3_witness :
    handleGet "ev!l" noParams =
      Response.clientError "Invalid entity set name provided in the URL." ∧
    (handleGet "event" noParams =
      Response.getQuery (buildGetQuery "event" noParams).1
        (buildGetQuery "event" noParams).2 ∧
     ∃ rest, (buildGetQuery "event" noParams).1 =
       "SELECT " ++ columnsToSelect noParams.select ++ " FROM " ++
         quoteIdent "event" ++ rest) :=
  ⟨(C3_amended "ev!l" noParams).1 (Or.inr (by decide)),
   (C3_amended "event" noParams).2 ⟨by decide, by decide⟩⟩

/-- Claim C4 counterexample: the coercion chain differs from the claim in
two places.  (1) A lone single-quote token satisfies the quoted-token test
in the code (there is no minimum-length check), so it coerces to the empty
string, while the claim (branch 5) predicts the verbatim token.  (2) The
interior of a quoted token is decoded with `unquote_plus`, which also turns
`+` into a space, while the claim predicts pure percent-decoding, under
which `a+b` is unchanged. -/
theorem C4_counterexample :
    coerceValue squote = PyVal.pystr "" ∧
    PyVal.pystr "" ≠ PyVal.pystr squote ∧
    coerceValue (squote ++ "a+b" ++ squote) = PyVal.pystr "a b" ∧
    pyUnquote "a+b" = "a+b" ∧
    PyVal.pystr "a b" ≠ PyVal.pystr (pyUnquote "a+b") := by
  refine ⟨by decide, by decide, by decide, by decide, by decide⟩

/-- Claim C4 (amended): the coercion precedence, first match wins — (1) a
token that begins and ends with a single quote (a lone quote qualifies,
giving the empty interior) becomes the `unquote_plus`-decoded interior
(plus signs become spaces, percent-escapes resolve); (2) otherwise a token
lower-casing to `true` or `false` becomes a boolean; (3) otherwise a token
parsing as a base-10 integer becomes an integer; (4) otherwise a token
accepted by `float()` becomes a float; (5) otherwise the raw token text
becomes a string. -/
theorem C4_amended (tok : String) :
    ((strStartsWithChar squoteChar tok && strEndsWithChar squoteChar tok) = true →
      coerceValue tok = PyVal.pystr (pyUnquotePlus (strInterior tok))) ∧
    ((strStartsWithChar squoteChar tok && strEndsWithChar squoteChar tok) = false →
      (pyLower tok = "true" → coerceValue tok = PyVal.pybool true) ∧
      (pyLower tok = "false" → coerceValue tok = PyVal.pybool false) ∧
      (pyLower tok ≠ "true" → pyLower tok ≠ "false" →
        ((∀ n, pyInt tok = some n → coerceValue tok = PyVal.pyint n) ∧
         (pyInt tok = none → pyFloatAccepts tok = true →
           coerceValue tok = PyVal.pyfloat tok) ∧
         (pyInt tok = none → pyFloatAccepts tok = false →
           coerceValue tok = PyVal.pystr tok)))) := by
  constructor
  · intro hq
    simp [coerceValue, hq]
  · intro hq
    refine ⟨?_, ?_, ?_⟩
    · intro h1
      simp [coerceValue, hq, h1]
    · intro h1
      simp [coerceValue, hq, h1]
    · intro h1 h2
      refine ⟨?_, ?_, ?_⟩
      · intro n hn
        simp [coerceValue, hq, h1, h2, hn]
      · intro hn hf
        simp [coerceValue, hq, h1, h2, hn, hf]
      · intro hn hf
        simp [coerceValue, hq, h1, h2, hn, hf]

/-- Witness for C4 (amended), exercising every branch at concrete tokens:
a quoted token with a percent-escape, the booleans, an integer, a float and
a fallback string. -/
theorem C4_witness :
    coerceValue (squote ++ "%27" ++ squote) = PyVal.pystr squote ∧
    coerceValue "TRUE" = PyVal.pybool true ∧
    coerceValue "False" = PyVal.pybool false ∧
    coerceValue "17" = PyVal.pyint 17 ∧
    coerceValue "2.5" = PyVal.pyfloat "2.5" ∧
    coerceValue "abc" = PyVal.pystr "abc" := by
  refine ⟨?_, ?_, ?_, ?_, ?_, ?_⟩
  · have h := (C4_amended (squote ++ "%27" ++ squote)).1 (by decide)
    rw [h]
    decide
  · have h := (((C4_amended "TRUE").2 (by decide)).1) (by decide)
    exact h
  · have h := (((C4_amended "False").2 (by decide)).2.1) (by decide)
    exact h
  · have h := ((((C4_amended "17").2 (by decide)).2.2) (by decide) (by decide)).1
      17 (by decide)
    exact h
  · have h := ((((C4_amended "2.5").2 (by decide)).2.2) (by decide) (by decide)).2.1
      (by decide) (by decide)
    exact h
  · have h := ((((C4_amended "abc").2 (by decide)).2.2) (by decide) (by decide)).2.2
      (by decide) (by decide)
    exact h

/-- Claim C5 counterexample: for the filter `name eq ~a+b~` (with `~`
standing for single quotes), the bound parameter is `a b` — the code
decodes the interior with `unquote_plus`, which turns the plus into a
space — while pure percent-decoding leaves `a+b` unchanged, so the
parameter does not equal the percent-decoded interior the claim predicts. -/
theorem C5_counterexample :
    filterFragment (some ("name eq " ++ squote ++ "a+b" ++ squote)) =
      some ("\"name\" = %s", PyVal.pystr "a b") ∧
    pyUnquote "a+b" = "a+b" ∧
    PyVal.pystr "a b" ≠ PyVal.pystr (pyUnquote "a+b") := by
  refine ⟨by decide, by decide, by decide⟩

/-- Claim C5 (amended): for every filter splitting into a column token, an
operator token lower-casing to `eq`, and a single-quoted value (the tokens
past the second re-joined with spaces), the emitted comparison operator is
`=` and the single bound parameter is the `unquote_plus`-decoded interior
(plus-to-space and percent-decoding) of the quoted value. -/
theorem C5_amended (f col opTok v0 : String) (vrest : List String)
    (hsplit : pySplitChar ' ' f = col :: opTok :: v0 :: vrest)
    (hop : pyLower opTok = "eq")
    (hq1 : strStartsWithChar squoteChar (pyJoin " " (v0 :: vrest)) = true)
    (hq2 : strEndsWithChar squoteChar (pyJoin " " (v0 :: vrest)) = true) :
    filterFragment (some f) =
      some (quoteIdent col ++ " = %s",
        PyVal.pystr (pyUnquotePlus (strInterior (pyJoin " " (v0 :: vrest))))) := by
  have hne : f ≠ "" := by
    intro h
    subst h
    rw [show pySplitChar ' ' "" = [""] from rfl] at hsplit
    cases hsplit
  have hmid : (" " ++ ("=" ++ " %s") : String) = " = %s" := by decide
  simp only [filterFragment]
  rw [if_neg hne, hsplit]
  simp only [hop]
  rw [show sqlOperatorMap "eq" = some "=" from rfl]
  simp only [coerceValue, hq1, hq2, Bool.and_self, if_true]
  rw [strAppendAssoc, strAppendAssoc, hmid]

/-- Witness for C5 (amended) at the concrete filter `name eq ~Alice~`. -/
theorem C5_witness :
    filterFragment (some ("name eq " ++ squote ++ "Alice" ++ squote)) =
      some ("\"name\" = %s", PyVal.pystr "Alice") := by
  have h := C5_amended ("name eq " ++ squote ++ "Alice" ++ squote) "name" "eq"
    (squote ++ "Alice" ++ squote) [] (by decide) (by decide) (by decide) (by decide)
  rw [h]
  decide

/-- Claim C6: a `$filter` that splits into fewer than three space-delimited
tokens, or whose operator token is not (case-insensitively) one of
`eq, ne, gt, ge, lt, le`, is silently ignored — no predicate fragment is
produced, and both the built statement/parameter pair and the full handler
response are identical to those of the same request with no `$filter`. -/
theorem C6_malformed_filter_ignored (entitySet : String) (p : GetParams)
    (f : String)
    (h : (pySplitChar ' ' f).length < 3 ∨
      (∀ p0 p1 rest, pySplitChar ' ' f = p0 :: p1 :: rest →
        pyLower p1 ∉ (["eq", "gt", "lt", "ge", "le", "ne"] : List String))) :
    filterFragment (some f) = none ∧
    buildGetQuery entitySet { p with filter := some f } =
      buildGetQuery entitySet { p with filter := none } ∧
    handleGet entitySet { p with filter := some f } =
      handleGet entitySet { p with filter := none } := by
  have hnone : filterFragment (some f) = none := by
    simp only [filterFragment]
    by_cases hf : f = ""
    · rw [if_pos hf]
    · rw [if_neg hf]
      cases hsp : pySplitChar ' ' f with
      | nil => rfl
      | cons p0 t =>
        cases t with
        | nil => rfl
        | cons p1 t2 =>
          cases t2 with
          | nil => rfl
          | cons v0 vrest =>
            rcases h with h | h
            · rw [hsp] at h
              simp at h
              omega
            · have hop := sqlOperatorMap_none_of_not_mem (pyLower p1)
                (h p0 p1 (v0 :: vrest) hsp)
              simp [hop]
  have hbuild : buildGetQuery entitySet { p with filter := some f } =
      buildGetQuery entitySet { p with filter := none } := by
    simp only [buildGetQuery, queryPartsOf, filterParamsOf, hnone,
      show filterFragment none = none from rfl]
  refine ⟨hnone, hbuild, ?_⟩
  simp only [handleGet, hbuild]

/-- Witness for C6 at the concrete malformed filter `justonetoken` (one
token) on the entity set `event`. -/
theorem C6_witness :
    filterFragment (some "justonetoken") = none ∧
    buildGetQuery "event" { noParams with filter := some "justonetoken" } =
      buildGetQuery "event" { noParams with filter := none } ∧
    handleGet "event" { noParams with filter := some "justonetoken" } =
      handleGet "event" { noParams with filter := none } :=
  C6_malformed_filter_ignored "event" noParams "justonetoken"
    (Or.inl (by decide))

/-- The head of a `dropWhile` result fails the predicate. -/
theorem dropWhile_head_not (p : Char → Bool) :
    ∀ (l : List Char) (c : Char) (cs : List Char),
      l.dropWhile p = c :: cs → p c = false := by
  intro l
  induction l with
  | nil => intro c cs h; cases h
  | cons a t ih =>
    intro c cs h
    by_cases hp : p a = true
    · rw [List.dropWhile_cons_of_pos hp] at h
      exact ih c cs h
    · rw [List.dropWhile_cons_of_neg hp] at h
      cases h
      simpa using hp

/-- `dropWhile` over an appended final element that fails the predicate. -/
theorem dropWhile_append_single (p : Char → Bool) (l : List Char) (c : Char)
    (hc : p c = false) :
    (l ++ [c]).dropWhile p =
      (if l.dropWhile p = [] then [c] else l.dropWhile p ++ [c]) := by
  induction l with
  | nil => simp [List.dropWhile, hc]
  | cons a t ih =>
    by_cases hp : p a = true
    · rw [List.cons_append, List.dropWhile_cons_of_pos hp,
        List.dropWhile_cons_of_pos hp, ih]
    · rw [List.cons_append, List.dropWhile_cons_of_neg hp,
        List.dropWhile_cons_of_neg hp]
      simp

/-- A non-empty stripped character list starts with a non-whitespace
character. -/
theorem pyStripList_head (cs : List Char) (hne : pyStripList cs ≠ []) :
    ∃ c rest, pyStripList cs = c :: rest ∧ isPySpace c = false := by
  unfold pyStripList at hne ⊢
  cases hu : cs.dropWhile isPySpace with
  | nil => rw [hu] at hne; simp at hne
  | cons c cs2 =>
    have hc : isPySpace c = false := dropWhile_head_not isPySpace cs c cs2 hu
    rw [List.reverse_cons, dropWhile_append_single isPySpace cs2.reverse c hc]
    by_cases h0 : cs2.reverse.dropWhile isPySpace = []
    · rw [if_pos h0]
      exact ⟨c, [], by simp, hc⟩
    · rw [if_neg h0]
      exact ⟨c, (cs2.reverse.dropWhile isPySpace).reverse, by simp, hc⟩

/-- The head of `splitCharAux` is the accumulator followed by the longest
separator-free front of the input. -/
theorem head?_splitCharAux (sep : Char) :
    ∀ (l acc : List Char),
      (splitCharAux sep l acc).head? =
        some (acc.reverse ++ l.takeWhile (fun c => !(c == sep))) := by
  intro l
  induction l with
  | nil => intro acc; simp [splitCharAux]
  | cons c rest ih =>
    intro acc
    by_cases hc : c = sep
    · subst hc
      simp [splitCharAux, List.takeWhile_cons]
    · rw [show splitCharAux sep (c :: rest) acc =
        splitCharAux sep rest (c :: acc) from by simp [splitCharAux, hc]]
      rw [ih (c :: acc)]
      simp [List.takeWhile_cons, hc]

/-- Source-side and specification-side `$orderby` entries agree: the code
emits exactly the rendering of the claimed `(column, direction)` pair. -/
theorem orderEntry_eq (part : String) :
    orderEntry part = (specOrderEntry part).map renderOrderEntry := by
  unfold orderEntry specOrderEntry
  by_cases ht : pyStrip part = ""
  · simp [ht]
  · simp only [ht, if_false]
    cases hsp : pySplitChar ' ' (pyStrip part) with
    | nil => simp
    | cons c0 rest =>
      cases rest with
      | nil => simp [renderOrderEntry]
      | cons d ds =>
        by_cases hd : pyLower d = "desc" <;> simp [hd, renderOrderEntry]

/-- The full filter over entries agrees between the source side and the
rendered specification side. -/
theorem filterMap_orderEntry_eq (l : List String) :
    l.filterMap orderEntry =
      (l.filterMap specOrderEntry).map renderOrderEntry := by
  induction l with
  | nil => rfl
  | cons a t ih =>
    simp only [List.filterMap_cons]
    rw [orderEntry_eq a]
    cases h : specOrderEntry a <;> simp [h, ih]

/-- Claim C7: the ORDER BY clause is the rendering, in input order, of the
claimed entry list — each comma-separated entry trimmed and split, with
direction DESC exactly when the second token lower-cases to `desc` and ASC
otherwise, empty entries dropped, and no clause at all when every entry is
dropped; moreover every surviving entry has a non-empty column. -/
theorem C7_orderby (ob : String) :
    orderByClauseOf (some ob) =
      (if specOrderEntries ob = [] then ""
       else " ORDER BY " ++
         pyJoin ", " ((specOrderEntries ob).map renderOrderEntry)) ∧
    ∀ e ∈ specOrderEntries ob, e.1 ≠ "" := by
  constructor
  · by_cases hob : ob = ""
    · subst hob
      decide
    · simp only [orderByClauseOf, if_neg hob]
      rw [filterMap_orderEntry_eq]
      unfold specOrderEntries
      cases h : (pySplitChar ',' ob).filterMap specOrderEntry with
      | nil => simp
      | cons e t => simp
  · intro e he
    unfold specOrderEntries at he
    rw [List.mem_filterMap] at he
    obtain ⟨part, _, hspec⟩ := he
    unfold specOrderEntry at hspec
    by_cases ht : pyStrip part = ""
    · simp [ht] at hspec
    · simp only [ht, if_false] at hspec
      have hlist : pyStripList part.toList ≠ [] := by
        intro h
        apply ht
        unfold pyStrip
        rw [h]
      obtain ⟨ch, ctail, hstrip, hsp⟩ := pyStripList_head part.toList hlist
      have htl : (pyStrip part).toList = ch :: ctail := by
        show (String.mk (pyStripList part.toList)).toList = ch :: ctail
        rw [hstrip]
        rfl
      have hhead : (pySplitChar ' ' (pyStrip part)).head? =
          some (String.mk ((ch :: ctail).takeWhile (fun c => !(c == ' ')))) := by
        unfold pySplitChar
        rw [List.head?_map, head?_splitCharAux ' ' (pyStrip part).toList [], htl]
        rfl
      have hch : (ch == ' ') = false := by
        simp only [isPySpace, Bool.or_eq_false_iff] at hsp
        exact hsp.1.1.1.1.1
      rw [List.takeWhile_cons, hch] at hhead
      simp only [Bool.not_false, if_true] at hhead
      cases hsplit : pySplitChar ' ' (pyStrip part) with
      | nil => rw [hsplit] at hspec; cases hspec
      | cons c0 rest =>
        rw [hsplit] at hspec hhead
        simp only [List.head?_cons, Option.some.injEq] at hhead
        cases hspec
        intro habs
        rw [hhead] at habs
        exact List.noConfusion (congrArg String.data habs)

/-- Witness for C7 at the concrete parameter `User desc, id`: the clause
renders both entries in order with their directions, the first entry is a
member of the claimed entry list, and its column is non-empty. -/
theorem C7_witness :
    orderByClauseOf (some "User desc, id") =
      " ORDER BY \"User\" DESC, \"id\" ASC" ∧
    ("User", "DESC") ∈ specOrderEntries "User desc, id" ∧
    ("User", "DESC").1 ≠ "" := by
  have h := C7_orderby "User desc, id"
  refine ⟨?_, by decide, h.2 ("User", "DESC") (by decide)⟩
  rw [h.1]
  decide
